import Mathlib

/-!
Shallow embedding of `src/robusta/integrations/slack/sender.py`: the report
rendering and dispatch pipeline for the Slack backend.  Pure functions of the
source become Lean functions; the Slack SDK client (an external collaborator)
is abstracted by explicit function parameters (`post`, `permalinkOf`); Python
exceptions become an explicit `Except` error channel.
-/

deriving instance DecidableEq for Except

namespace Robusta

/-- Python exception values raised by the sender.  The source raises only the
generic builtin `Exception` (with a message) and `AssertionError`; the two
constructors record which builtin class was raised. -/
inductive PyError where
  | exception (msg : String)
  | assertionError (msg : String)
deriving DecidableEq

/-- The Python class name of a raised exception value. -/
def PyError.className : PyError → String
  | PyError.exception _ => "Exception"
  | PyError.assertionError _ => "AssertionError"

/-- A callback function reference.  Function identity is all the sender
inspects (registry membership and token encoding), so references are modelled
as opaque identifiers. -/
abbrev CallbackRef := Nat

/-- A `FileBlock`: binary contents plus a display name (defined in the
reporting blocks module; only these two fields are consumed by the sender). -/
structure FileBlock where
  filename : String
  contents : List Nat
deriving DecidableEq

/-- The tagged variant set of report blocks consumed by `to_slack`
(`MarkdownBlock`, `DividerBlock`, `FileBlock`, `HeaderBlock`, `ListBlock`,
`TableBlock`, `CallbackBlock`), plus `unknown` for any other `BaseBlock`
subtype reaching the trailing `else` branch.  A `CallbackBlock` carries its
`choices` mapping (ordered label/callback pairs; the whole mapping may be
`None`, and an individual callback value may be `None`) and its `context`
mapping. -/
inductive Block where
  | markdown (text : String)
  | divider
  | file (fb : FileBlock)
  | header (text : String)
  | listB (items : List String)
  | tableB (headers : List String) (rows : List (List String))
  | callback (choices : Option (List (String × Option CallbackRef)))
      (context : List (String × String))
  | unknown (typeName : String)
deriving DecidableEq

/-- Python `isinstance(b, FileBlock)`. -/
def Block.isFile : Block → Bool
  | Block.file _ => true
  | _ => false

/-- A button inside a Slack "actions" element:
the dict literal built in `get_action_block_for_choices`
(type "button", plain_text label, primary style, action_id, value). -/
structure Button where
  text : String
  style : String
  action_id : String
  value : String
deriving DecidableEq

/-- A Slack platform message element (`SlackBlock = Dict[str, Any]` in the
source).  One constructor per dict shape the sender constructs:
section / divider / header / actions. -/
inductive SlackBlock where
  | sect (text : String)
  | divider
  | header (text : String)
  | actions (elements : List Button)
deriving DecidableEq

/-- The wire-level "type" discriminator of a Slack element. -/
def SlackBlock.type : SlackBlock → String
  | SlackBlock.sect _ => "section"
  | SlackBlock.divider => "divider"
  | SlackBlock.header _ => "header"
  | SlackBlock.actions _ => "actions"

/-- Modelled from the spec: `TARGET_ID` is imported from the Slack receiver
module, which is outside `src/`; it is the injected delivery-target identifier
merged into every callback context. -/
def TARGET_ID : String := "target-id"

/-- The action-identifier stem `ACTION_TRIGGER_PLAYBOOK`. -/
def ACTION_TRIGGER_PLAYBOOK : String := "trigger_playbook"

/-- Modelled from the spec: `PlaybookCallbackRequest.create_for_func(callback,
context).json()` (the callbacks module is outside `src/`): a string token
embedding the function identity and the serialized context. -/
def create_for_func_json (callback : CallbackRef) (context : String) : String :=
  "\x7b\"func\": " ++ toString callback ++ ", \"context\": " ++ context ++ "\x7d"

/-- Modelled as a concrete stand-in for Python `json.dumps` on a string-keyed
mapping (standard library, external to the repository). -/
def json_dumps (d : List (String × String)) : String :=
  "\x7b" ++ String.intercalate ", " (d.map fun p => "\"" ++ p.1 ++ "\": \"" ++ p.2 ++ "\"") ++ "\x7d"

/-- Python dict assignment `d[k] = v` on an insertion-ordered mapping:
overwrite in place if the key exists, otherwise append. -/
def dict_set (d : List (String × String)) (k v : String) : List (String × String) :=
  if d.any fun p => p.1 == k then d.map fun p => if p.1 == k then (k, v) else p
  else d ++ [(k, v)]

/-- The message of the `Exception` raised when a choice maps to `None`. -/
def null_callback_msg (text : String) : String :=
  "The callback for choice " ++ text ++
    " is None. Did you accidentally pass foo() as a callback and not foo?"

/-- The message of the `Exception` raised when a callback is not in the
registry. -/
def unregistered_callback_msg (callback : CallbackRef) : String :=
  toString callback ++
    " is not a function that was decorated with @on_report_callback or it somehow" ++
    " has the wrong version (e.g. multiple functions with the same name were decorated " ++
    "with @on_report_callback)"

/-- The `for (i, (text, callback)) in enumerate(choices.items())` loop body of
`get_action_block_for_choices`: `i` is the running enumeration index.  A `None`
callback raises; an unregistered callback raises; otherwise a button is
appended whose `action_id` is `trigger_playbook_<i>` and whose value is the
encoded callback token. -/
def build_choice_buttons (registry : CallbackRef → Bool) (context : String) :
    Nat → List (String × Option CallbackRef) → Except PyError (List Button)
  | _, [] => Except.ok []
  | i, (text, callback) :: rest =>
    match callback with
    | none => Except.error (PyError.exception (null_callback_msg text))
    | some f =>
      if registry f then
        match build_choice_buttons registry context (i + 1) rest with
        | Except.error e => Except.error e
        | Except.ok bs =>
          Except.ok ({ text := text, style := "primary",
                       action_id := ACTION_TRIGGER_PLAYBOOK ++ "_" ++ toString i,
                       value := create_for_func_json f context } :: bs)
      else Except.error (PyError.exception (unregistered_callback_msg f))

/-- `get_action_block_for_choices(choices, context)`: `None` choices yield no
elements; otherwise one "actions" element wrapping the buttons.  The registry
membership test (`callback_registry.is_callback_in_registry`, external) is the
`registry` parameter. -/
def get_action_block_for_choices (registry : CallbackRef → Bool)
    (choices : Option (List (String × Option CallbackRef)) := none)
    (context : String := "") : Except PyError (List SlackBlock) :=
  match choices with
  | none => Except.ok []
  | some cs =>
    match build_choice_buttons registry context 0 cs with
    | Except.error e => Except.error e
    | Except.ok buttons => Except.ok [SlackBlock.actions buttons]

/-- Python slice `s[:k]` for an arbitrary (possibly negative) stop index:
a negative stop counts from the end, clamped at zero. -/
def py_slice_to (s : String) (k : Int) : String :=
  if 0 ≤ k then s.take k.toNat else s.take (s.length - (-k).toNat)

/-- `apply_length_limit(msg, max_length=3000)`. -/
def apply_length_limit (msg : String) (max_length : Int := 3000) : String :=
  if (msg.length : Int) ≤ max_length then msg
  else
    py_slice_to msg (max_length - (("..." : String).length : Int)) ++ "..."

/-- The `MarkdownBlock` arm of `to_slack`: empty text yields no elements,
otherwise one "section" element with length-limited mrkdwn text. -/
def markdown_to_slack (text : String) : List SlackBlock :=
  if text = "" then [] else [SlackBlock.sect (apply_length_limit text)]

/-- Modelled from the spec: `ListBlock.to_markdown` (the blocks module is
outside `src/`) renders the items as one equivalent Markdown text. -/
def list_to_markdown_text (items : List String) : String :=
  String.intercalate "\n" (items.map fun item => "* " ++ item)

/-- Modelled from the spec: `TableBlock.to_markdown` (the blocks module is
outside `src/`) renders the rows as one equivalent Markdown text. -/
def table_to_markdown_text (headers : List String) (rows : List (List String)) : String :=
  String.intercalate "\n" ((headers :: rows).map fun r => String.intercalate " | " r)

/-- `to_slack(block)`: the per-variant translation.  The `unknown` arm models
the trailing `else`: it logs `cannot convert block of type ... to slack
format` (a side effect not carried by the value model) and returns `[]`. -/
def to_slack (registry : CallbackRef → Bool) : Block → Except PyError (List SlackBlock)
  | Block.markdown text => Except.ok (markdown_to_slack text)
  | Block.divider => Except.ok [SlackBlock.divider]
  | Block.file _ =>
    Except.error (PyError.assertionError "to_slack() should never be called on a FileBlock")
  | Block.header text => Except.ok [SlackBlock.header (apply_length_limit text 150)]
  | Block.listB items => Except.ok (markdown_to_slack (list_to_markdown_text items))
  | Block.tableB headers rows =>
    Except.ok (markdown_to_slack (table_to_markdown_text headers rows))
  | Block.callback choices context =>
    get_action_block_for_choices registry choices
      (json_dumps (dict_set context "target_id" TARGET_ID))
  | Block.unknown _ => Except.ok []

/-- Python `sep.join(xs)`. -/
def str_join (sep : String) : List String → String
  | [] => ""
  | [x] => x
  | x :: y :: xs => x ++ sep ++ str_join sep (y :: xs)

/-- `upload_file_to_slack(block)`: the temp-file write and the
`slack_client.files_upload` call are external side effects; the durable
permalink extracted from the upload response is abstracted by the
`permalinkOf` parameter. -/
def upload_file_to_slack (permalinkOf : FileBlock → String) (fb : FileBlock) : String :=
  permalinkOf fb

/-- The `"* <permalink | filename>"` asset-reference string built for one
uploaded file in `prepare_slack_text`. -/
def file_reference (permalinkOf : FileBlock → String) (fb : FileBlock) : String :=
  "* <" ++ upload_file_to_slack permalinkOf fb ++ " | " ++ fb.filename ++ ">"

/-- `prepare_slack_text(message, mentions=[], files=[])`: mention markers,
then the message, then newline-joined file references, then the empty-message
placeholder substitution, then the length limit. -/
def prepare_slack_text (permalinkOf : FileBlock → String) (message : String)
    (mentions : List String := []) (files : List FileBlock := []) : String :=
  let mention_part := str_join " " (mentions.map fun user_id => "<@" ++ user_id ++ ">")
  let message := if mention_part ≠ "" then mention_part ++ " " ++ message else message
  let message :=
    if files ≠ [] then
      let uploaded_files := files.map fun fb => file_reference permalinkOf fb
      let file_references := str_join "\n" uploaded_files
      message ++ "\n" ++ file_references
    else message
  if message.length = 0 then "empty-message"
  else apply_length_limit message

/-- The composed text of `prepare_slack_text` just before the empty-message
substitution and the length limit: mention markers, then the message, then the
newline-joined file references. -/
def slack_text_core (permalinkOf : FileBlock → String) (message : String)
    (mentions : List String) (files : List FileBlock) : String :=
  let mention_part := str_join " " (mentions.map fun user_id => "<@" ++ user_id ++ ">")
  let message := if mention_part ≠ "" then mention_part ++ " " ++ message else message
  if files ≠ [] then
    message ++ "\n" ++ str_join "\n" (files.map fun fb => file_reference permalinkOf fb)
  else message

/-- Whether a filename ends in `.svg` (character-level suffix test). -/
def is_svg_filename (s : String) : Bool :=
  s.data.reverse.take 4 == ['g', 'v', 's', '.']

/-- Modelled from the spec: `add_pngs_for_all_svgs` (the reporting utils
module is outside `src/`) is the image-pairing preprocessor: vector-image
(`.svg`) files gain a rendered raster counterpart (the rendering itself is the
external converter `svg2png`); the list is order-preserving and non-image
files pass through unchanged. -/
def add_pngs_for_all_svgs (svg2png : FileBlock → FileBlock)
    (files : List FileBlock) : List FileBlock :=
  files.flatMap fun fb =>
    if is_svg_filename fb.filename then [fb, svg2png fb] else [fb]

/-- The `[b for b in event.report_blocks if isinstance(b, FileBlock)]`
comprehension, typed: the `FileBlock` payloads of the file-variant blocks. -/
def file_blocks_of (blocks : List Block) : List FileBlock :=
  blocks.filterMap fun b =>
    match b with
    | Block.file fb => some fb
    | _ => none

/-- Modelled from the spec: the fields of `BaseEvent` that the sender consumes
(the events module is outside `src/`): report title, title-visibility flag,
ordered body blocks, ordered attachment blocks, destination channel, mention
identifiers, and the link-preview flag. -/
structure BaseEvent where
  report_title : String
  report_title_hidden : Bool
  report_blocks : List Block
  report_attachment_blocks : List Block
  slack_channel : String
  slack_mentions : List String
  slack_allow_unfurl : Bool
deriving DecidableEq

/-- The keyword arguments of one `slack_client.chat_postMessage` call.
`attachments`, when present, is a list of attachment objects each wrapping a
block list (the source passes `[{"blocks": attachment_blocks}]`). -/
structure PostArgs where
  channel : String
  text : String
  blocks : List SlackBlock
  display_as_bot : Bool
  attachments : Option (List (List SlackBlock))
  unfurl_links : Bool
  unfurl_media : Bool
deriving DecidableEq

/-- The context captured by the `logging.error` call in the `except` branch of
`send_to_slack`: the exception, the attempted text, the body elements and the
attachment elements (the interpolated values of the log f-string). -/
structure SlackErrorLog where
  e : String
  text : String
  blocks : List SlackBlock
  attachment_blocks : List SlackBlock
deriving DecidableEq

/-- The observable outcome of a normal return from `send_to_slack`: the
submission arguments that were passed to the backend, and the error log when
the backend call failed (none on success). -/
structure SendResult where
  args : PostArgs
  errorLog : Option SlackErrorLog
deriving DecidableEq

/-- The `for block in blocks: out.extend(to_slack(block))` accumulation
pattern of `send_to_slack`: translate each block in order and concatenate,
propagating the first raised exception. -/
def to_slack_all (registry : CallbackRef → Bool) :
    List Block → Except PyError (List SlackBlock)
  | [] => Except.ok []
  | b :: bs =>
    match to_slack registry b with
    | Except.error e => Except.error e
    | Except.ok xs =>
      match to_slack_all registry bs with
      | Except.error e => Except.error e
      | Except.ok ys => Except.ok (xs ++ ys)

/-- `send_to_slack(event)`.  The backend `chat_postMessage` call is the
`post` parameter (it may raise, modelled by `Except.error`); the upload
permalink and the SVG rasterizer are the `permalinkOf` and `svg2png`
parameters.  A normal Python return is `Except.ok`; an exception escaping
`send_to_slack` is `Except.error`.  The `logging.debug` call before
submission is a side effect not carried by the value model. -/
def send_to_slack (post : PostArgs → Except String Unit)
    (permalinkOf : FileBlock → String) (svg2png : FileBlock → FileBlock)
    (registry : CallbackRef → Bool) (event : BaseEvent) :
    Except PyError SendResult :=
  let file_blocks := add_pngs_for_all_svgs svg2png (file_blocks_of event.report_blocks)
  let other_blocks := event.report_blocks.filter fun b => !(Block.isFile b)
  let message :=
    prepare_slack_text permalinkOf event.report_title event.slack_mentions file_blocks
  let headerOut : Except PyError (List SlackBlock) :=
    if event.report_title_hidden = false ∧ event.report_title ≠ "" then
      to_slack registry (Block.header event.report_title)
    else Except.ok []
  match headerOut with
  | Except.error e => Except.error e
  | Except.ok headerBlocks =>
    match to_slack_all registry other_blocks with
    | Except.error e => Except.error e
    | Except.ok otherOut =>
      let output_blocks := headerBlocks ++ otherOut
      match to_slack_all registry event.report_attachment_blocks with
      | Except.error e => Except.error e
      | Except.ok attachment_blocks =>
        let args : PostArgs :=
          if attachment_blocks ≠ [] then
            { channel := event.slack_channel, text := message, blocks := output_blocks,
              display_as_bot := true, attachments := some [attachment_blocks],
              unfurl_links := event.slack_allow_unfurl,
              unfurl_media := event.slack_allow_unfurl }
          else
            { channel := event.slack_channel, text := message, blocks := output_blocks,
              display_as_bot := true, attachments := none,
              unfurl_links := event.slack_allow_unfurl,
              unfurl_media := event.slack_allow_unfurl }
        match post args with
        | Except.ok _ => Except.ok { args := args, errorLog := none }
        | Except.error e =>
          Except.ok { args := args,
                      errorLog := some { e := e, text := message,
                                         blocks := output_blocks,
                                         attachment_blocks := attachment_blocks } }

/-- Every choice of the map carries a callback that is present in the
registry (the hypothesis under which the Callback arm succeeds). -/
def choices_valid (registry : CallbackRef → Bool)
    (cs : List (String × Option CallbackRef)) : Bool :=
  cs.all fun p =>
    match p.2 with
    | some f => registry f
    | none => false

theorem length_append_str (s t : String) : (s ++ t).length = s.length + t.length := by
  show (s ++ t).data.length = _
  rw [String.data_append, List.length_append]
  rfl

theorem length_take_str (s : String) (n : Nat) : (s.take n).length = min n s.length := by
  show (s.take n).data.length = _
  rw [String.data_take, List.length_take]
  rfl

theorem str_append_assoc (a b c : String) : a ++ b ++ c = a ++ (b ++ c) := by
  have h : (a ++ b ++ c).data = (a ++ (b ++ c)).data := by
    rw [String.data_append, String.data_append, String.data_append, String.data_append,
      List.append_assoc]
  exact congrArg String.mk h

/-- C2 (amended): for every text `t` and every limit `L` that is at least the
marker length 3, the limiter returns `t` unchanged when `len(t) <= L` and
otherwise returns the first `L - 3` characters of `t` concatenated with
`"..."`, so the result length is exactly `L`; in all cases the result length
is at most `L`.  (For `L < 3` the bound fails, see the counterexample.) -/
theorem apply_length_limit_spec (t : String) (L : Int) (hL : 3 ≤ L) :
    ((apply_length_limit t L).length : Int) ≤ L ∧
    ((t.length : Int) ≤ L → apply_length_limit t L = t) ∧
    (L < (t.length : Int) →
      apply_length_limit t L = t.take (L - 3).toNat ++ "..." ∧
      ((apply_length_limit t L).length : Int) = L) := by
  by_cases h : (t.length : Int) ≤ L
  · refine ⟨?_, fun _ => ?_, fun hlt => absurd h (not_le.2 hlt)⟩
    · rw [apply_length_limit, if_pos h]
      exact h
    · rw [apply_length_limit, if_pos h]
  · have hlt : L < (t.length : Int) := not_le.1 h
    have e3 : (("..." : String).length : Int) = 3 := rfl
    have heq : apply_length_limit t L = t.take (L - 3).toNat ++ "..." := by
      rw [apply_length_limit, if_neg h, py_slice_to,
        if_pos (show (0 : Int) ≤ L - (("..." : String).length : Int) by omega), e3]
    have hlen : ((apply_length_limit t L).length : Int) = L := by
      rw [heq, length_append_str, length_take_str]
      have h1 : (L - 3).toNat ≤ t.length := by omega
      rw [min_eq_left h1]
      have h2 : ("..." : String).length = 3 := rfl
      rw [h2]
      omega
    exact ⟨le_of_eq hlen, fun hle => absurd hle h, fun _ => ⟨heq, hlen⟩⟩

/-- C2 (amended) witness: at `t = "abcdefgh"`, `L = 5` the hypothesis `3 ≤ 5`
holds and the bound holds. -/
theorem apply_length_limit_spec_witness :
    ((3 : Int) ≤ 5) ∧ ((apply_length_limit "abcdefgh" 5).length : Int) ≤ 5 :=
  ⟨by decide, (apply_length_limit_spec "abcdefgh" 5 (by decide)).1⟩

/-- C2 counterexample: at `t = "abc"`, `L = 2` (a limit smaller than the
marker), Python slicing with a negative stop makes the result `"ab..."` of
length 5, so `len(limit(t, L)) <= L` fails. -/
theorem apply_length_limit_counterexample :
    apply_length_limit "abc" 2 = "ab..." ∧
    ¬ (((apply_length_limit "abc" 2).length : Int) ≤ 2) := by
  exact ⟨by decide, by decide⟩

/-- C7: for every registry and every `FileBlock`, `to_slack` raises
`AssertionError` (a fatal assertion failure, not a recoverable return). -/
theorem to_slack_fileblock_asserts (registry : CallbackRef → Bool) (fb : FileBlock) :
    to_slack registry (Block.file fb) =
      Except.error
        (PyError.assertionError "to_slack() should never be called on a FileBlock") ∧
    (PyError.assertionError "to_slack() should never be called on a FileBlock").className
      = "AssertionError" :=
  ⟨rfl, rfl⟩

/-- C10: a `None` choices mapping yields an empty element sequence — no
"actions" element at all and no error — both from
`get_action_block_for_choices` directly and through the Callback arm of
`to_slack`. -/
theorem none_choices_yield_no_elements (registry : CallbackRef → Bool)
    (context : String) (ctx : List (String × String)) :
    get_action_block_for_choices registry none context = Except.ok [] ∧
    to_slack registry (Block.callback none ctx) = Except.ok [] :=
  ⟨rfl, rfl⟩

/-- C4 counterexample: the two callback-misuse conditions raise errors of the
same Python class (`Exception`), distinguished only by message — not two
distinct typed errors. -/
theorem callback_errors_untyped :
    get_action_block_for_choices (fun _ => true) (some [("restart", none)]) "" =
      Except.error (PyError.exception (null_callback_msg "restart")) ∧
    get_action_block_for_choices (fun _ => false) (some [("restart", some 7)]) "" =
      Except.error (PyError.exception (unregistered_callback_msg 7)) ∧
    (PyError.exception (null_callback_msg "restart")).className =
      (PyError.exception (unregistered_callback_msg 7)).className ∧
    null_callback_msg "restart" ≠ unregistered_callback_msg 7 :=
  ⟨rfl, rfl, rfl, by decide⟩

/-- C4 (amended): a `None` callback raises a generic `Exception` carrying the
null-callback message, and an unregistered callback raises a generic
`Exception` carrying the unregistered-callback message; the two conditions
are distinguished by message, not by exception type. -/
theorem callback_error_conditions (registry : CallbackRef → Bool) (context : String)
    (text : String) (rest : List (String × Option CallbackRef)) (f : CallbackRef) :
    get_action_block_for_choices registry (some ((text, none) :: rest)) context =
      Except.error (PyError.exception (null_callback_msg text)) ∧
    (registry f = false →
      get_action_block_for_choices registry (some ((text, some f) :: rest)) context =
        Except.error (PyError.exception (unregistered_callback_msg f))) := by
  refine ⟨rfl, fun hf => ?_⟩
  simp [get_action_block_for_choices, build_choice_buttons, hf]

theorem build_choice_buttons_ok (registry : CallbackRef → Bool) (context : String)
    (cs : List (String × Option CallbackRef)) (hv : choices_valid registry cs = true) :
    ∀ i, ∃ buttons,
      build_choice_buttons registry context i cs = Except.ok buttons ∧
      buttons.length = cs.length ∧
      buttons.map Button.action_id =
        (List.range cs.length).map
          (fun j => ACTION_TRIGGER_PLAYBOOK ++ "_" ++ toString (i + j)) ∧
      buttons.map Button.text = cs.map Prod.fst := by
  induction cs with
  | nil => exact fun i => ⟨[], rfl, rfl, rfl, rfl⟩
  | cons p rest ih =>
    intro i
    obtain ⟨text, callback⟩ := p
    rw [choices_valid, List.all_cons, Bool.and_eq_true] at hv
    obtain ⟨hp, hrest⟩ := hv
    cases callback with
    | none => exact absurd hp (by simp)
    | some f =>
      have hreg : registry f = true := hp
      obtain ⟨bs, hbs, hlen, hact, htext⟩ := ih hrest (i + 1)
      refine ⟨{ text := text, style := "primary",
                action_id := ACTION_TRIGGER_PLAYBOOK ++ "_" ++ toString i,
                value := create_for_func_json f context } :: bs, ?_, ?_, ?_, ?_⟩
      · rw [build_choice_buttons, hreg, if_pos rfl, hbs]
      · simpa using hlen
      · rw [List.map_cons, hact, List.length_cons, List.range_succ_eq_map,
          List.map_cons, List.map_map]
        refine congrArg₂ List.cons (by rw [Nat.add_zero]) ?_
        refine List.map_congr_left fun j _ => ?_
        have h1 : i + 1 + j = i + Nat.succ j := by omega
        simp [Function.comp, h1]
      · rw [List.map_cons, htext, List.map_cons]

/-- C3: for every Callback block whose choice map has `n` entries, all valid
and registered, translation yields exactly one "actions" element containing
exactly `n` buttons, whose action identifiers are `trigger_playbook_0` through
`trigger_playbook_{n-1}` in the choice map's iteration order, button `i`
carrying the label of the `i`-th inserted choice. -/
theorem callback_block_one_actions_element (registry : CallbackRef → Bool)
    (cs : List (String × Option CallbackRef)) (ctx : List (String × String))
    (hv : choices_valid registry cs = true) :
    ∃ buttons,
      to_slack registry (Block.callback (some cs) ctx) =
        Except.ok [SlackBlock.actions buttons] ∧
      buttons.length = cs.length ∧
      buttons.map Button.action_id =
        (List.range cs.length).map
          (fun i => ACTION_TRIGGER_PLAYBOOK ++ "_" ++ toString i) ∧
      buttons.map Button.text = cs.map Prod.fst := by
  obtain ⟨buttons, hb, hlen, hact, htext⟩ :=
    build_choice_buttons_ok registry
      (json_dumps (dict_set ctx "target_id" TARGET_ID)) cs hv 0
  refine ⟨buttons, ?_, hlen, ?_, htext⟩
  · rw [to_slack, get_action_block_for_choices, hb]
  · rw [hact]
    exact List.map_congr_left fun j _ => by rw [Nat.zero_add]

/-- C3 witness: two registered choices yield one "actions" element with two
buttons labelled in order, action ids `trigger_playbook_0`,
`trigger_playbook_1`. -/
theorem callback_block_one_actions_element_witness :
    choices_valid (fun _ => true) [("approve", some 1), ("deny", some 2)] = true ∧
    ∃ buttons,
      to_slack (fun _ => true)
          (Block.callback (some [("approve", some 1), ("deny", some 2)]) []) =
        Except.ok [SlackBlock.actions buttons] ∧
      buttons.length = [("approve", some 1), ("deny", some 2)].length ∧
      buttons.map Button.action_id =
        (List.range [("approve", some 1), ("deny", some 2)].length).map
          (fun i => ACTION_TRIGGER_PLAYBOOK ++ "_" ++ toString i) ∧
      buttons.map Button.text = [("approve", some 1), ("deny", some 2)].map Prod.fst :=
  ⟨by decide,
   callback_block_one_actions_element (fun _ => true)
     [("approve", some 1), ("deny", some 2)] [] (by decide)⟩

/-- C6 counterexample: the block translator is not total — on a `FileBlock`
it raises instead of returning an element sequence. -/
theorem to_slack_fails_on_fileblock :
    ∃ e, to_slack (fun _ => true)
        (Block.file { filename := "graph.svg", contents := [] }) =
      Except.error e :=
  ⟨_, rfl⟩

/-- C6 (amended): the block translator is total over every block variant
except `File` (a fatal assertion) and `Callback` with invalid choices (raises
`Exception`): every other block, including an unknown variant, returns an
element sequence; an unknown variant degrades to the empty sequence (its
diagnostic log is a side effect outside the value model). -/
theorem to_slack_total_except_files (registry : CallbackRef → Bool) (b : Block)
    (hfile : b.isFile = false)
    (hcb : ∀ cs ctx, b = Block.callback (some cs) ctx →
      choices_valid registry cs = true) :
    ∃ out, to_slack registry b = Except.ok out ∧
      (∀ s, b = Block.unknown s → out = []) := by
  cases b with
  | markdown text => exact ⟨_, rfl, fun _ h => nomatch h⟩
  | divider => exact ⟨_, rfl, fun _ h => nomatch h⟩
  | file fb => simp [Block.isFile] at hfile
  | header text => exact ⟨_, rfl, fun _ h => nomatch h⟩
  | listB items => exact ⟨_, rfl, fun _ h => nomatch h⟩
  | tableB headers rows => exact ⟨_, rfl, fun _ h => nomatch h⟩
  | callback choices ctx =>
    cases choices with
    | none => exact ⟨[], rfl, fun _ h => nomatch h⟩
    | some cs =>
      obtain ⟨buttons, hb, -, -, -⟩ :=
        build_choice_buttons_ok registry
          (json_dumps (dict_set ctx "target_id" TARGET_ID)) cs (hcb cs ctx rfl) 0
      refine ⟨[SlackBlock.actions buttons], ?_, fun _ h => nomatch h⟩
      rw [to_slack, get_action_block_for_choices, hb]
  | unknown s => exact ⟨[], rfl, fun _ _ => rfl⟩

/-- C6 (amended) witness: a divider block (not a File, not a Callback)
translates to a singleton separator element. -/
theorem to_slack_total_except_files_witness :
    ∃ out, to_slack (fun _ => true) Block.divider = Except.ok out ∧
      (∀ s, Block.divider = Block.unknown s → out = []) :=
  to_slack_total_except_files (fun _ => true) Block.divider rfl
    (fun _ _ h => nomatch h)

theorem prepare_eq_core (permalinkOf : FileBlock → String) (message : String)
    (mentions : List String) (files : List FileBlock) :
    prepare_slack_text permalinkOf message mentions files =
      if (slack_text_core permalinkOf message mentions files).length = 0 then "empty-message"
      else apply_length_limit (slack_text_core permalinkOf message mentions files) :=
  rfl

theorem apply_length_limit_data_prefix (pre t : String) (L : Int) (hL : 3 ≤ L)
    (hpre : (pre.length : Int) ≤ L - 3) :
    ∃ rest, (apply_length_limit (pre ++ t) L).data = pre.data ++ rest := by
  by_cases h : (((pre ++ t).length : Int) ≤ L)
  · exact ⟨t.data, by rw [apply_length_limit, if_pos h, String.data_append]⟩
  · have e3 : (("..." : String).length : Int) = 3 := rfl
    refine ⟨t.data.take ((L - 3).toNat - pre.length) ++ ("..." : String).data, ?_⟩
    rw [apply_length_limit, if_neg h, py_slice_to,
      if_pos (show (0 : Int) ≤ L - (("..." : String).length : Int) by omega), e3,
      String.data_append, String.data_take, String.data_append,
      List.take_append_eq_append_take,
      List.take_of_length_le (show pre.data.length ≤ (L - 3).toNat by
        have : pre.data.length = pre.length := rfl
        omega),
      List.append_assoc]
    rfl

/-- C8: the composed text is the space-joined mention markers (if any),
then the title, then the newline-joined asset references (if any files),
with the empty-composition placeholder and the final length limit
(third conjunct); a report with empty title, no mentions and no files
composes to exactly `"empty-message"` (first conjunct); and a report with
mentions `["U1","U2"]` and title `"Build failed"` composes to a text beginning
with `"<@U1> <@U2> Build failed"` (second conjunct). -/
theorem prepare_slack_text_composition :
    (∀ permalinkOf, prepare_slack_text permalinkOf "" [] [] = "empty-message") ∧
    (∀ (permalinkOf : FileBlock → String) (files : List FileBlock), ∃ rest,
      (prepare_slack_text permalinkOf "Build failed" ["U1", "U2"] files).data =
        ("<@U1> <@U2> Build failed" : String).data ++ rest) ∧
    (∀ permalinkOf message mentions files,
      prepare_slack_text permalinkOf message mentions files =
        if (slack_text_core permalinkOf message mentions files).length = 0
        then "empty-message"
        else apply_length_limit (slack_text_core permalinkOf message mentions files)) := by
  refine ⟨fun _ => rfl, ?_, fun p m ms fs => prepare_eq_core p m ms fs⟩
  intro p files
  cases files with
  | nil => exact ⟨[], by rw [List.append_nil]; rfl⟩
  | cons f fs =>
    have hcore : slack_text_core p "Build failed" ["U1", "U2"] (f :: fs) =
        "<@U1> <@U2> Build failed" ++
          ("\n" ++ str_join "\n" ((f :: fs).map fun fb => file_reference p fb)) := by
      rw [← str_append_assoc]
      rfl
    have h24 : ("<@U1> <@U2> Build failed" : String).length = 24 := rfl
    have hne : (slack_text_core p "Build failed" ["U1", "U2"] (f :: fs)).length ≠ 0 := by
      rw [hcore, length_append_str, h24]
      omega
    obtain ⟨rest, hrest⟩ :=
      apply_length_limit_data_prefix "<@U1> <@U2> Build failed"
        ("\n" ++ str_join "\n" ((f :: fs).map fun fb => file_reference p fb)) 3000
        (by omega) (by rw [h24]; omega)
    refine ⟨rest, ?_⟩
    rw [prepare_eq_core, if_neg hne, hcore]
    exact hrest

/-- The `chat_postMessage` keyword arguments `send_to_slack` builds once the
body translation produced `otherOut` and the attachment translation produced
`attachment_blocks`. -/
def send_args (permalinkOf : FileBlock → String) (svg2png : FileBlock → FileBlock)
    (event : BaseEvent) (otherOut attachment_blocks : List SlackBlock) : PostArgs :=
  { channel := event.slack_channel,
    text := prepare_slack_text permalinkOf event.report_title event.slack_mentions
      (add_pngs_for_all_svgs svg2png (file_blocks_of event.report_blocks)),
    blocks := (if event.report_title_hidden = false ∧ event.report_title ≠ "" then
        [SlackBlock.header (apply_length_limit event.report_title 150)] else []) ++ otherOut,
    display_as_bot := true,
    attachments := if attachment_blocks ≠ [] then some [attachment_blocks] else none,
    unfurl_links := event.slack_allow_unfurl,
    unfurl_media := event.slack_allow_unfurl }

/-- The `SendResult` produced by `send_to_slack` once both translations have
succeeded: the post either succeeds (no error log) or its exception is caught
and logged. -/
def send_result_of (post : PostArgs → Except String Unit)
    (permalinkOf : FileBlock → String) (svg2png : FileBlock → FileBlock)
    (event : BaseEvent) (otherOut attachment_blocks : List SlackBlock) : SendResult :=
  let args := send_args permalinkOf svg2png event otherOut attachment_blocks
  match post args with
  | Except.ok _ => { args := args, errorLog := none }
  | Except.error e =>
    { args := args,
      errorLog := some { e := e, text := args.text, blocks := args.blocks,
                         attachment_blocks := attachment_blocks } }

theorem send_to_slack_eq_of_translations (post : PostArgs → Except String Unit)
    (permalinkOf : FileBlock → String) (svg2png : FileBlock → FileBlock)
    (registry : CallbackRef → Bool) (event : BaseEvent)
    (otherOut attachment_blocks : List SlackBlock)
    (h1 : to_slack_all registry (event.report_blocks.filter fun b => !(Block.isFile b)) =
      Except.ok otherOut)
    (h2 : to_slack_all registry event.report_attachment_blocks =
      Except.ok attachment_blocks) :
    send_to_slack post permalinkOf svg2png registry event =
      Except.ok
        (send_result_of post permalinkOf svg2png event otherOut attachment_blocks) := by
  by_cases hc : event.report_title_hidden = false ∧ event.report_title ≠ "" <;>
    by_cases ha : attachment_blocks ≠ [] <;>
      simp only [send_to_slack, send_args, send_result_of, hc, ha, h1, h2, to_slack,
        if_true, if_false, ite_true, ite_false, ne_eq, not_true_eq_false,
        not_false_eq_true, not_not, and_self, and_true, true_and, false_and,
        and_false, List.singleton_append, List.nil_append, List.append_nil] <;>
      split <;> rfl

theorem send_to_slack_error_of_other (post : PostArgs → Except String Unit)
    (permalinkOf : FileBlock → String) (svg2png : FileBlock → FileBlock)
    (registry : CallbackRef → Bool) (event : BaseEvent) (e : PyError)
    (h1 : to_slack_all registry (event.report_blocks.filter fun b => !(Block.isFile b)) =
      Except.error e) :
    send_to_slack post permalinkOf svg2png registry event = Except.error e := by
  by_cases hc : event.report_title_hidden = false ∧ event.report_title ≠ "" <;>
    simp [send_to_slack, hc, h1, to_slack]

theorem send_to_slack_error_of_attachments (post : PostArgs → Except String Unit)
    (permalinkOf : FileBlock → String) (svg2png : FileBlock → FileBlock)
    (registry : CallbackRef → Bool) (event : BaseEvent)
    (otherOut : List SlackBlock) (e : PyError)
    (h1 : to_slack_all registry (event.report_blocks.filter fun b => !(Block.isFile b)) =
      Except.ok otherOut)
    (h2 : to_slack_all registry event.report_attachment_blocks = Except.error e) :
    send_to_slack post permalinkOf svg2png registry event = Except.error e := by
  by_cases hc : event.report_title_hidden = false ∧ event.report_title ≠ "" <;>
    simp [send_to_slack, hc, h1, h2, to_slack]

theorem send_to_slack_ok_inv (post : PostArgs → Except String Unit)
    (permalinkOf : FileBlock → String) (svg2png : FileBlock → FileBlock)
    (registry : CallbackRef → Bool) (event : BaseEvent) (r : SendResult)
    (h : send_to_slack post permalinkOf svg2png registry event = Except.ok r) :
    ∃ otherOut attachment_blocks,
      to_slack_all registry (event.report_blocks.filter fun b => !(Block.isFile b)) =
        Except.ok otherOut ∧
      to_slack_all registry event.report_attachment_blocks = Except.ok attachment_blocks ∧
      r = send_result_of post permalinkOf svg2png event otherOut attachment_blocks := by
  cases h1 : to_slack_all registry (event.report_blocks.filter fun b => !(Block.isFile b)) with
  | error e =>
    rw [send_to_slack_error_of_other post permalinkOf svg2png registry event e h1] at h
    exact nomatch h
  | ok otherOut =>
    cases h2 : to_slack_all registry event.report_attachment_blocks with
    | error e =>
      rw [send_to_slack_error_of_attachments post permalinkOf svg2png registry event
        otherOut e h1 h2] at h
      exact nomatch h
    | ok attachment_blocks =>
      rw [send_to_slack_eq_of_translations post permalinkOf svg2png registry event
        otherOut attachment_blocks h1 h2] at h
      injection h with h
      exact ⟨otherOut, attachment_blocks, rfl, rfl, h.symm⟩

theorem send_result_of_args (post : PostArgs → Except String Unit)
    (permalinkOf : FileBlock → String) (svg2png : FileBlock → FileBlock)
    (event : BaseEvent) (otherOut attachment_blocks : List SlackBlock) :
    (send_result_of post permalinkOf svg2png event otherOut attachment_blocks).args =
      send_args permalinkOf svg2png event otherOut attachment_blocks := by
  simp only [send_result_of]
  cases post (send_args permalinkOf svg2png event otherOut attachment_blocks) <;> rfl

theorem send_result_of_log_none (post : PostArgs → Except String Unit)
    (permalinkOf : FileBlock → String) (svg2png : FileBlock → FileBlock)
    (event : BaseEvent) (otherOut attachment_blocks : List SlackBlock)
    (h : post (send_args permalinkOf svg2png event otherOut attachment_blocks) =
      Except.ok ()) :
    (send_result_of post permalinkOf svg2png event otherOut attachment_blocks).errorLog =
      none := by
  simp only [send_result_of, h]

theorem send_result_of_log_error (post : PostArgs → Except String Unit)
    (permalinkOf : FileBlock → String) (svg2png : FileBlock → FileBlock)
    (event : BaseEvent) (otherOut attachment_blocks : List SlackBlock) (e : String)
    (h : post (send_args permalinkOf svg2png event otherOut attachment_blocks) =
      Except.error e) :
    (send_result_of post permalinkOf svg2png event otherOut attachment_blocks).errorLog =
      some { e := e,
             text := (send_args permalinkOf svg2png event otherOut attachment_blocks).text,
             blocks := (send_args permalinkOf svg2png event otherOut attachment_blocks).blocks,
             attachment_blocks := attachment_blocks } := by
  simp only [send_result_of, h]

/-- A report whose body holds a Callback block with a `None` callback: the
translation error escapes `send_to_slack`. -/
def c1_event : BaseEvent :=
  { report_title := "deployment status", report_title_hidden := false,
    report_blocks := [Block.callback (some [("fix it", none)]) []],
    report_attachment_blocks := [], slack_channel := "general",
    slack_mentions := [], slack_allow_unfurl := true }

/-- C1 counterexample: a report containing a Callback block whose choice maps
to `None` makes `send_to_slack` propagate an exception to its caller — the
translation runs outside the try/except that guards only the backend
submission call — even though the backend itself would accept the message. -/
theorem send_to_slack_raises_counterexample :
    send_to_slack (fun _ => Except.ok ()) (fun _ => "") id (fun _ => true) c1_event =
      Except.error (PyError.exception (null_callback_msg "fix it")) := by
  decide

/-- C1 (amended): whenever block translation succeeds (no callback misuse in
the report), `send_to_slack` returns normally even if the backend submission
call raises: the backend error is caught and logged together with the
attempted text, body element sequence and attachment element sequence (the
destination is not part of the error log).  Errors raised before the
submission call — during translation — do propagate. -/
theorem send_returns_normally_after_translation (post : PostArgs → Except String Unit)
    (permalinkOf : FileBlock → String) (svg2png : FileBlock → FileBlock)
    (registry : CallbackRef → Bool) (event : BaseEvent)
    (h1 : ∃ oo, to_slack_all registry
      (event.report_blocks.filter fun b => !(Block.isFile b)) = Except.ok oo)
    (h2 : ∃ ab, to_slack_all registry event.report_attachment_blocks = Except.ok ab) :
    ∃ r ab, send_to_slack post permalinkOf svg2png registry event = Except.ok r ∧
      to_slack_all registry event.report_attachment_blocks = Except.ok ab ∧
      (post r.args = Except.ok () → r.errorLog = none) ∧
      (∀ e, post r.args = Except.error e →
        r.errorLog = some { e := e, text := r.args.text, blocks := r.args.blocks,
                            attachment_blocks := ab }) := by
  obtain ⟨oo, h1⟩ := h1
  obtain ⟨ab, h2⟩ := h2
  refine ⟨send_result_of post permalinkOf svg2png event oo ab, ab,
    send_to_slack_eq_of_translations post permalinkOf svg2png registry event oo ab h1 h2,
    h2, ?_, ?_⟩
  · intro hok
    rw [send_result_of_args] at hok
    exact send_result_of_log_none post permalinkOf svg2png event oo ab hok
  · intro e he
    rw [send_result_of_args] at he
    rw [send_result_of_args]
    exact send_result_of_log_error post permalinkOf svg2png event oo ab e he

/-- A plain one-markdown-block report used to exercise the failing-backend
path of `send_to_slack`. -/
def c1_witness_event : BaseEvent :=
  { report_title := "hello", report_title_hidden := false,
    report_blocks := [Block.markdown "all good"],
    report_attachment_blocks := [], slack_channel := "general",
    slack_mentions := [], slack_allow_unfurl := false }

/-- C1 (amended) witness: with a backend that always raises `"boom"`,
dispatch of a well-formed report still returns normally and logs the
context. -/
theorem send_returns_normally_witness :
    ∃ r ab,
      send_to_slack (fun _ => Except.error "boom") (fun _ => "") id (fun _ => true)
          c1_witness_event = Except.ok r ∧
      to_slack_all (fun _ => true) c1_witness_event.report_attachment_blocks =
        Except.ok ab ∧
      ((fun _ => Except.error "boom" : PostArgs → Except String Unit) r.args =
          Except.ok () → r.errorLog = none) ∧
      (∀ e, (fun _ => Except.error "boom" : PostArgs → Except String Unit) r.args =
          Except.error e →
        r.errorLog = some { e := e, text := r.args.text, blocks := r.args.blocks,
                            attachment_blocks := ab }) :=
  send_returns_normally_after_translation (fun _ => Except.error "boom") (fun _ => "")
    id (fun _ => true) c1_witness_event ⟨_, rfl⟩ ⟨_, rfl⟩

/-- C9: if dispatch succeeded, the submission call carried the translated
body elements (header plus block translations), and carried
`attachments = [{blocks: attachment_elements}]` exactly when the translated
attachment element sequence was non-empty; when it was empty, no attachments
field was passed. -/
theorem send_attachments_wire_contract (post : PostArgs → Except String Unit)
    (permalinkOf : FileBlock → String) (svg2png : FileBlock → FileBlock)
    (registry : CallbackRef → Bool) (event : BaseEvent) (r : SendResult)
    (h : send_to_slack post permalinkOf svg2png registry event = Except.ok r) :
    ∃ otherOut attachment_blocks,
      to_slack_all registry (event.report_blocks.filter fun b => !(Block.isFile b)) =
        Except.ok otherOut ∧
      to_slack_all registry event.report_attachment_blocks =
        Except.ok attachment_blocks ∧
      r.args.blocks = (if event.report_title_hidden = false ∧ event.report_title ≠ ""
        then [SlackBlock.header (apply_length_limit event.report_title 150)]
        else []) ++ otherOut ∧
      (attachment_blocks ≠ [] → r.args.attachments = some [attachment_blocks]) ∧
      (attachment_blocks = [] → r.args.attachments = none) := by
  obtain ⟨oo, ab, h1, h2, hr⟩ :=
    send_to_slack_ok_inv post permalinkOf svg2png registry event r h
  subst hr
  rw [send_result_of_args]
  refine ⟨oo, ab, h1, h2, rfl, fun hne => ?_, fun he => ?_⟩
  · simp [send_args, hne]
  · simp [send_args, he]

/-- A report with one attachment divider block and an empty body. -/
def c9_event : BaseEvent :=
  { report_title := "t", report_title_hidden := false,
    report_blocks := [], report_attachment_blocks := [Block.divider],
    slack_channel := "c", slack_mentions := [], slack_allow_unfurl := true }

/-- C9 witness: the one-attachment report is submitted with
`attachments = [[divider]]` wrapped around the attachment elements. -/
theorem send_attachments_wire_contract_witness :
    ∃ otherOut attachment_blocks,
      to_slack_all (fun _ => true)
          (c9_event.report_blocks.filter fun b => !(Block.isFile b)) =
        Except.ok otherOut ∧
      to_slack_all (fun _ => true) c9_event.report_attachment_blocks =
        Except.ok attachment_blocks ∧
      ({ args := { channel := "c", text := "t", blocks := [SlackBlock.header "t"],
                   display_as_bot := true, attachments := some [[SlackBlock.divider]],
                   unfurl_links := true, unfurl_media := true },
         errorLog := none } : SendResult).args.blocks =
        (if c9_event.report_title_hidden = false ∧ c9_event.report_title ≠ ""
          then [SlackBlock.header (apply_length_limit c9_event.report_title 150)]
          else []) ++ otherOut ∧
      (attachment_blocks ≠ [] →
        ({ args := { channel := "c", text := "t", blocks := [SlackBlock.header "t"],
                     display_as_bot := true, attachments := some [[SlackBlock.divider]],
                     unfurl_links := true, unfurl_media := true },
           errorLog := none } : SendResult).args.attachments =
          some [attachment_blocks]) ∧
      (attachment_blocks = [] →
        ({ args := { channel := "c", text := "t", blocks := [SlackBlock.header "t"],
                     display_as_bot := true, attachments := some [[SlackBlock.divider]],
                     unfurl_links := true, unfurl_media := true },
           errorLog := none } : SendResult).args.attachments = none) :=
  send_attachments_wire_contract (fun _ => Except.ok ()) (fun _ => "") id
    (fun _ => true) c9_event
    { args := { channel := "c", text := "t", blocks := [SlackBlock.header "t"],
                display_as_bot := true, attachments := some [[SlackBlock.divider]],
                unfurl_links := true, unfurl_media := true },
      errorLog := none }
    (by decide)

theorem mem_file_blocks_of (blocks : List Block) (fb : FileBlock)
    (h : Block.file fb ∈ blocks) : fb ∈ file_blocks_of blocks := by
  rw [file_blocks_of, List.mem_filterMap]
  exact ⟨Block.file fb, h, rfl⟩

theorem mem_add_pngs_for_all_svgs (svg2png : FileBlock → FileBlock)
    (files : List FileBlock) (fb : FileBlock) (h : fb ∈ files) :
    fb ∈ add_pngs_for_all_svgs svg2png files := by
  rw [add_pngs_for_all_svgs, List.mem_flatMap]
  refine ⟨fb, h, ?_⟩
  split <;> simp

theorem str_join_data_infix (sep : String) (xs : List String) (x : String)
    (hx : x ∈ xs) : ∃ l r, (str_join sep xs).data = l ++ x.data ++ r := by
  induction xs with
  | nil => cases hx
  | cons a as ih =>
    rcases List.mem_cons.1 hx with rfl | hmem
    · cases as with
      | nil => exact ⟨[], [], by simp [str_join]⟩
      | cons b bs =>
        refine ⟨[], sep.data ++ (str_join sep (b :: bs)).data, ?_⟩
        simp only [str_join, String.data_append]
        simp [List.append_assoc]
    · cases as with
      | nil => cases hmem
      | cons b bs =>
        obtain ⟨l, r, hlr⟩ := ih hmem
        refine ⟨a.data ++ sep.data ++ l, r, ?_⟩
        simp only [str_join, String.data_append, hlr]
        simp [List.append_assoc]

theorem slack_text_core_with_files (p : FileBlock → String) (m : String)
    (ms : List String) (f : FileBlock) (fs : List FileBlock) :
    ∃ mm, slack_text_core p m ms (f :: fs) =
      mm ++ "\n" ++ str_join "\n" ((f :: fs).map fun fb => file_reference p fb) := by
  refine ⟨if str_join " " (ms.map fun u => "<@" ++ u ++ ">") ≠ ""
      then str_join " " (ms.map fun u => "<@" ++ u ++ ">") ++ " " ++ m else m, ?_⟩
  simp only [slack_text_core]
  rw [if_pos (show (f :: fs : List FileBlock) ≠ [] by simp)]

/-- C5 (amended): for every report whose body contains a File block and whose
dispatch succeeds, the File block is excluded from the list handed to the
generic block translator, the emitted blocks array contains no File-typed
element, and — provided the composed text is within the platform maximum
length (3000) — the dispatched text contains the file's
`"* <permalink | filename>"` reference string.  (An over-long composed text
can have the reference truncated away, see the counterexample.) -/
theorem send_file_blocks_intercepted (post : PostArgs → Except String Unit)
    (permalinkOf : FileBlock → String) (svg2png : FileBlock → FileBlock)
    (registry : CallbackRef → Bool) (event : BaseEvent) (fb : FileBlock)
    (r : SendResult)
    (hmem : Block.file fb ∈ event.report_blocks)
    (hok : send_to_slack post permalinkOf svg2png registry event = Except.ok r)
    (hlen : ((slack_text_core permalinkOf event.report_title event.slack_mentions
        (add_pngs_for_all_svgs svg2png (file_blocks_of event.report_blocks))).length : Int)
        ≤ 3000) :
    (Block.file fb ∉ event.report_blocks.filter fun b => !(Block.isFile b)) ∧
    (∀ sb ∈ r.args.blocks, sb.type ≠ "file") ∧
    (∃ l rr, r.args.text.data =
      l ++ (file_reference permalinkOf fb).data ++ rr) := by
  obtain ⟨oo, ab, h1, h2, hr⟩ :=
    send_to_slack_ok_inv post permalinkOf svg2png registry event r hok
  subst hr
  rw [send_result_of_args]
  refine ⟨?_, ?_, ?_⟩
  · intro hmemf
    rw [List.mem_filter] at hmemf
    simp [Block.isFile] at hmemf
  · intro sb _
    cases sb <;> simp [SlackBlock.type]
  · have htext : (send_args permalinkOf svg2png event oo ab).text =
        prepare_slack_text permalinkOf event.report_title event.slack_mentions
          (add_pngs_for_all_svgs svg2png (file_blocks_of event.report_blocks)) := rfl
    rw [htext]
    have hfb : fb ∈ add_pngs_for_all_svgs svg2png (file_blocks_of event.report_blocks) :=
      mem_add_pngs_for_all_svgs svg2png _ fb (mem_file_blocks_of _ fb hmem)
    obtain ⟨f, fs, hfs⟩ : ∃ f fs,
        add_pngs_for_all_svgs svg2png (file_blocks_of event.report_blocks) = f :: fs := by
      cases hq : add_pngs_for_all_svgs svg2png (file_blocks_of event.report_blocks) with
      | nil => rw [hq] at hfb; cases hfb
      | cons f fs => exact ⟨f, fs, rfl⟩
    rw [hfs] at hlen hfb ⊢
    obtain ⟨mm, hshape⟩ :=
      slack_text_core_with_files permalinkOf event.report_title event.slack_mentions f fs
    have hne : (slack_text_core permalinkOf event.report_title event.slack_mentions
        (f :: fs)).length ≠ 0 := by
      rw [hshape, length_append_str, length_append_str]
      have h1n : ("\n" : String).length = 1 := rfl
      omega
    rw [prepare_eq_core, if_neg hne,
      (apply_length_limit_spec _ 3000 (by omega)).2.1 hlen, hshape]
    obtain ⟨l, rr, hJ⟩ := str_join_data_infix "\n"
      ((f :: fs).map fun fb => file_reference permalinkOf fb)
      (file_reference permalinkOf fb)
      (List.mem_map_of_mem _ hfb)
    refine ⟨(mm ++ "\n").data ++ l, rr, ?_⟩
    rw [String.data_append, hJ]
    simp [List.append_assoc]

theorem take_replicate_append (c : Char) (n m : Nat) (t : List Char) (h : m ≤ n) :
    (List.replicate n c ++ t).take m = List.replicate m c := by
  rw [List.take_append_eq_append_take, List.length_replicate, List.take_replicate,
    min_eq_left h, Nat.sub_eq_zero_of_le h, List.take_zero, List.append_nil]

/-- A 3000-character report title: long enough that the length limit cuts off
whatever follows it in the composed text. -/
def longTitle : String := String.mk (List.replicate 3000 'a')

/-- The file block used in the C5 theorems. -/
def fbC5 : FileBlock := { filename := "f.txt", contents := [] }

/-- A report whose composed text (3000-char title plus the file reference)
exceeds the platform maximum. -/
def c5_event : BaseEvent :=
  { report_title := longTitle, report_title_hidden := true,
    report_blocks := [Block.file fbC5], report_attachment_blocks := [],
    slack_channel := "c", slack_mentions := [], slack_allow_unfurl := false }

theorem c5_files :
    add_pngs_for_all_svgs id (file_blocks_of c5_event.report_blocks) = [fbC5] := by
  decide

theorem c5_core_eq :
    slack_text_core (fun _ => "L") longTitle [] [fbC5] =
      longTitle ++ "\n" ++ file_reference (fun _ => "L") fbC5 := by
  simp only [slack_text_core, List.map, str_join]
  rw [if_neg (show ¬(("" : String) ≠ "") by simp),
    if_pos (show ([fbC5] : List FileBlock) ≠ [] by simp)]

theorem c5_core_len :
    (slack_text_core (fun _ => "L") longTitle [] [fbC5]).length = 3014 := by
  rw [c5_core_eq, length_append_str, length_append_str]
  have h1 : longTitle.length = 3000 := by
    show (List.replicate 3000 'a').length = 3000
    rw [List.length_replicate]
  have h2 : ("\n" : String).length = 1 := rfl
  have h3 : (file_reference (fun _ => "L") fbC5).length = 13 := by decide
  omega

theorem c5_text_data :
    (prepare_slack_text (fun _ => "L") longTitle [] [fbC5]).data =
      List.replicate 2997 'a' ++ ('.' :: '.' :: '.' :: []) := by
  rw [prepare_eq_core, if_neg (by rw [c5_core_len]; omega)]
  have h3 : (3000 : Int) <
      ((slack_text_core (fun _ => "L") longTitle [] [fbC5]).length : Int) := by
    rw [c5_core_len]
    norm_num
  obtain ⟨heq, -⟩ := (apply_length_limit_spec _ 3000 (by norm_num)).2.2 h3
  rw [heq]
  have hk : ((3000 : Int) - 3).toNat = 2997 := by decide
  rw [hk, c5_core_eq, String.data_append, String.data_take, String.data_append,
    String.data_append]
  have hlt : longTitle.data = List.replicate 3000 'a' := rfl
  rw [hlt, List.append_assoc, take_replicate_append 'a' 3000 2997 _ (by norm_num)]

/-- C5 counterexample: dispatch of a report with a 3000-character title and
one File block succeeds, but the length limit truncates the composed text so
that the file's reference string does not appear in the dispatched text. -/
theorem send_file_reference_truncated_counterexample :
    ∃ r, send_to_slack (fun _ => Except.ok ()) (fun _ => "L") id (fun _ => true)
        c5_event = Except.ok r ∧
      Block.file fbC5 ∈ c5_event.report_blocks ∧
      ¬ ∃ l rr, r.args.text.data =
        l ++ (file_reference (fun _ => "L") fbC5).data ++ rr := by
  refine ⟨send_result_of (fun _ => Except.ok ()) (fun _ => "L") id c5_event [] [],
    send_to_slack_eq_of_translations (fun _ => Except.ok ()) (fun _ => "L") id
      (fun _ => true) c5_event [] [] rfl rfl,
    by decide, ?_⟩
  rintro ⟨l, rr, hdata⟩
  have harg : (send_result_of (fun _ => Except.ok ()) (fun _ => "L") id
      c5_event [] []).args.text =
      prepare_slack_text (fun _ => "L") longTitle [] [fbC5] := by
    have hproj1 : c5_event.report_title = longTitle := rfl
    have hproj2 : c5_event.slack_mentions = [] := rfl
    rw [send_result_of_args]
    simp only [send_args]
    rw [c5_files, hproj1, hproj2]
  rw [harg, c5_text_data] at hdata
  have hch : ('<' : Char) ∈ List.replicate 2997 'a' ++ ('.' :: '.' :: '.' :: []) := by
    rw [hdata]
    exact List.mem_append.2 (Or.inl (List.mem_append.2 (Or.inr (by decide))))
  rcases List.mem_append.1 hch with h | h
  · exact absurd (List.eq_of_mem_replicate h) (by decide)
  · exact absurd h (by decide)

/-- A short-titled report with one File block, for the C5 witness. -/
def c5_witness_event : BaseEvent :=
  { report_title := "build", report_title_hidden := false,
    report_blocks := [Block.file fbC5], report_attachment_blocks := [],
    slack_channel := "c", slack_mentions := [], slack_allow_unfurl := false }

/-- C5 (amended) witness: for the short report, the File block is excluded
from translation, no File-typed element is emitted, and the dispatched text
contains the file's reference string. -/
theorem send_file_blocks_intercepted_witness :
    (Block.file fbC5 ∉ c5_witness_event.report_blocks.filter fun b => !(Block.isFile b)) ∧
    (∀ sb ∈ (send_result_of (fun _ => Except.ok ()) (fun _ => "L") id
        c5_witness_event [] []).args.blocks, sb.type ≠ "file") ∧
    (∃ l rr, (send_result_of (fun _ => Except.ok ()) (fun _ => "L") id
        c5_witness_event [] []).args.text.data =
      l ++ (file_reference (fun _ => "L") fbC5).data ++ rr) :=
  send_file_blocks_intercepted (fun _ => Except.ok ()) (fun _ => "L") id
    (fun _ => true) c5_witness_event fbC5
    (send_result_of (fun _ => Except.ok ()) (fun _ => "L") id c5_witness_event [] [])
    (by decide)
    (send_to_slack_eq_of_translations (fun _ => Except.ok ()) (fun _ => "L") id
      (fun _ => true) c5_witness_event [] [] rfl rfl)
    (by decide)

/-- C4 (amended) witness: with an empty registry, encoding the single choice
`("go", 7)` raises the unregistered-callback `Exception`. -/
theorem callback_error_conditions_witness :
    ((fun _ => false : CallbackRef → Bool) 7 = false) ∧
    get_action_block_for_choices (fun _ => false) (some [("go", some 7)]) "" =
      Except.error (PyError.exception (unregistered_callback_msg 7)) :=
  ⟨rfl, (callback_error_conditions (fun _ => false) "" "go" [] 7).2 rfl⟩
